import Mathlib

/-!
Shallow embedding of the snake game in src/snake.py.

Positions and direction vectors are pairs of integers, as in the Python
source where both are plain 2-tuples.  Methods that index into a possibly
empty list (Python would raise IndexError) are modelled as Option-valued
functions; randomness (food spawning) is modelled by passing the freshly
drawn position as an explicit argument.  Rendering and real-time pacing are
pure I/O and are not modelled.
-/

namespace SnakeGame

/-- A grid coordinate or a direction vector: a pair of integers (x, y). -/
abbrev Pos := Int × Int

/-- Constant SCREEN_WIDTH = 600. -/
def SCREEN_WIDTH : Int := 600

/-- Constant SCREEN_HEIGHT = 480. -/
def SCREEN_HEIGHT : Int := 480

/-- Constant GRID_SIZE = 20. -/
def GRID_SIZE : Int := 20

/-- Constant GRID_WIDTH = SCREEN_WIDTH // GRID_SIZE (= 30). -/
def GRID_WIDTH : Int := SCREEN_WIDTH / GRID_SIZE

/-- Constant GRID_HEIGHT = SCREEN_HEIGHT // GRID_SIZE (= 24). -/
def GRID_HEIGHT : Int := SCREEN_HEIGHT / GRID_SIZE

/-- Direction UP = (0, -1). -/
def UP : Pos := (0, -1)

/-- Direction DOWN = (0, 1). -/
def DOWN : Pos := (0, 1)

/-- Direction LEFT = (-1, 0). -/
def LEFT : Pos := (-1, 0)

/-- Direction RIGHT = (1, 0). -/
def RIGHT : Pos := (1, 0)

/-- The Snake class: ordered body-segment list (head first), current
direction, and the pending-growth flag. -/
structure Snake where
  body : List Pos
  direction : Pos
  growth_pending : Bool
deriving Repr, DecidableEq

/-- Snake.__init__: one segment at the grid center, heading RIGHT, no
growth pending. -/
def Snake.init : Snake :=
  { body := [(GRID_WIDTH / 2, GRID_HEIGHT / 2)]
    direction := RIGHT
    growth_pending := false }

/-- Snake.move: new head = old head + direction; if no growth is pending
the last body element is removed (body.pop()) before the new head is
inserted at index 0, otherwise the flag is cleared and nothing is removed.
Returns none when the body is empty (Python body[0] would raise). -/
def Snake.move (s : Snake) : Option Snake :=
  match s.body with
  | [] => none
  | (head_x, head_y) :: _ =>
    let new_head : Pos := (head_x + s.direction.1, head_y + s.direction.2)
    if !s.growth_pending then
      some { s with body := new_head :: s.body.dropLast }
    else
      some { s with body := new_head :: s.body, growth_pending := false }

/-- Snake.change_direction: sets the direction unless the requested one is
the exact opposite of the current one. -/
def Snake.change_direction (s : Snake) (new_direction : Pos) : Snake :=
  if (new_direction.1 * -1, new_direction.2 * -1) ≠ s.direction then
    { s with direction := new_direction }
  else
    s

/-- Snake.grow: sets the pending-growth flag. -/
def Snake.grow (s : Snake) : Snake :=
  { s with growth_pending := true }

/-- Snake.get_head_position: body[0]; none when the body is empty. -/
def Snake.get_head_position (s : Snake) : Option Pos :=
  s.body.head?

/-- Keyboard keys distinguished by the event handler. -/
inductive Key where
  | up
  | down
  | left
  | right
  | other
deriving Repr, DecidableEq

/-- Pygame events consumed by the game: QUIT, KEYDOWN with a key, or any
other event. -/
inductive GEvent where
  | quit
  | keydown (k : Key)
  | other
deriving Repr, DecidableEq

/-- The KEYDOWN dispatch of Game._handle_events: arrow keys call
change_direction with the matching vector; other keys do nothing. -/
def applyKey (s : Snake) (k : Key) : Snake :=
  match k with
  | Key.up => s.change_direction UP
  | Key.down => s.change_direction DOWN
  | Key.left => s.change_direction LEFT
  | Key.right => s.change_direction RIGHT
  | Key.other => s

/-- The game state owned by the Game class: snake, food position, score
and the game-over flag.  The Food object holds only its position, so it is
embedded as a bare position. -/
structure Game where
  snake : Snake
  food : Pos
  score : Nat
  game_over : Bool
deriving Repr, DecidableEq

/-- Game.reset_game: fresh snake, fresh food (the random draw is passed in
as new_food), score 0, game-over flag cleared.  The previous state is
discarded entirely. -/
def Game.reset_game (_g : Game) (new_food : Pos) : Game :=
  { snake := Snake.init, food := new_food, score := 0, game_over := false }

/-- Game._handle_events: processes the event queue in order; QUIT
terminates the process (modelled as none), each KEYDOWN is dispatched to
the snake, other events are ignored. -/
def Game.handle_events (g : Game) : List GEvent → Option Game
  | [] => some g
  | GEvent.quit :: _ => none
  | GEvent.keydown k :: es => Game.handle_events { g with snake := applyKey g.snake k } es
  | GEvent.other :: es => Game.handle_events g es

/-- Game._check_collisions: food check first (grow, score += 10, respawn
with the fresh random draw new_food), then the wall check, then the
self check against body[1:]; the latter two set the game-over flag.
Returns none when the body is empty (Python body[0] would raise). -/
def Game.check_collisions (g : Game) (new_food : Pos) : Option Game :=
  match g.snake.get_head_position with
  | none => none
  | some head_pos =>
    let g1 :=
      if head_pos = g.food then
        { g with snake := g.snake.grow, score := g.score + 10, food := new_food }
      else
        g
    let g2 :=
      if head_pos.1 < 0 ∨ head_pos.1 ≥ GRID_WIDTH ∨ head_pos.2 < 0 ∨ head_pos.2 ≥ GRID_HEIGHT then
        { g1 with game_over := true }
      else
        g1
    let g3 :=
      if head_pos ∈ g2.snake.body.drop 1 then
        { g2 with game_over := true }
      else
        g2
    some g3

/-- One iteration of Game.run while not game over: handle events, move the
snake, run the collision checks.  When the game-over flag is set the
running branch is skipped and the state is unchanged (the blocking
game-over screen is modelled separately by display_game_over). -/
def Game.step (g : Game) (events : List GEvent) (new_food : Pos) : Option Game :=
  match g.handle_events events with
  | none => none
  | some g1 =>
    if g1.game_over then
      some g1
    else
      match g1.snake.move with
      | none => none
      | some s => Game.check_collisions { g1 with snake := s } new_food

/-- Iterated ticks: each list element carries the event batch of the tick
and the random food draw used in case of a respawn. -/
def Game.runTicks (g : Game) : List (List GEvent × Pos) → Option Game
  | [] => some g
  | (events, nf) :: rest =>
    match g.step events nf with
    | none => none
    | some g1 => Game.runTicks g1 rest

/-- Game._display_game_over event loop: QUIT terminates the process
(none); any KEYDOWN calls reset_game (the random food draw of the fresh
Food object is passed in as new_food); remaining events of the batch are
still processed afterwards, as in the Python for-loop. -/
def Game.display_game_over (g : Game) (new_food : Pos) : List GEvent → Option Game
  | [] => some g
  | GEvent.quit :: _ => none
  | GEvent.keydown _ :: es =>
    Game.display_game_over (g.reset_game new_food) new_food es
  | GEvent.other :: es => Game.display_game_over g new_food es

/-! Shared basic facts about the individual operations. -/

theorem grow_body (s : Snake) : s.grow.body = s.body := rfl

theorem grow_direction (s : Snake) : s.grow.direction = s.direction := rfl

theorem grow_growth_pending (s : Snake) : s.grow.growth_pending = true := rfl

theorem grow_grow (s : Snake) : s.grow.grow = s.grow := rfl

theorem change_direction_body (s : Snake) (d : Pos) :
    (s.change_direction d).body = s.body := by
  unfold Snake.change_direction
  split <;> rfl

theorem change_direction_growth_pending (s : Snake) (d : Pos) :
    (s.change_direction d).growth_pending = s.growth_pending := by
  unfold Snake.change_direction
  split <;> rfl

theorem applyKey_body (s : Snake) (k : Key) : (applyKey s k).body = s.body := by
  cases k <;> simp [applyKey, change_direction_body]

theorem applyKey_growth_pending (s : Snake) (k : Key) :
    (applyKey s k).growth_pending = s.growth_pending := by
  cases k <;> simp [applyKey, change_direction_growth_pending]

/-- Event handling can change only the direction of the snake: body,
growth flag, food, score and game-over flag are untouched. -/
theorem handle_events_some (g : Game) (es : List GEvent) (g1 : Game)
    (h : g.handle_events es = some g1) :
    g1.snake.body = g.snake.body ∧
    g1.snake.growth_pending = g.snake.growth_pending ∧
    g1.food = g.food ∧ g1.score = g.score ∧ g1.game_over = g.game_over := by
  induction es generalizing g with
  | nil =>
    simp only [Game.handle_events, Option.some.injEq] at h
    subst h
    exact ⟨rfl, rfl, rfl, rfl, rfl⟩
  | cons e es ih =>
    cases e with
    | quit => simp [Game.handle_events] at h
    | keydown k =>
      have h2 : Game.handle_events { g with snake := applyKey g.snake k } es = some g1 := h
      have := ih { g with snake := applyKey g.snake k } h2
      simpa [applyKey_body, applyKey_growth_pending] using this
    | other =>
      exact ih g h

/-- Evaluation of Snake.move on a non-empty body in both growth cases. -/
theorem move_eq (s : Snake) (p : Pos) (t : List Pos) (hb : s.body = p :: t) :
    s.move = some
      { body := (p.1 + s.direction.1, p.2 + s.direction.2) ::
          (if s.growth_pending then p :: t else (p :: t).dropLast)
        direction := s.direction
        growth_pending := false } := by
  obtain ⟨b, d, gp⟩ := s
  obtain ⟨px, py⟩ := p
  simp only at hb
  subst hb
  cases gp <;> simp [Snake.move]

/-- Evaluation of Game._check_collisions on a non-empty body. -/
theorem check_collisions_eq (g : Game) (nf : Pos) (p : Pos) (t : List Pos)
    (hb : g.snake.body = p :: t) :
    g.check_collisions nf = some
      { snake :=
          { body := p :: t
            direction := g.snake.direction
            growth_pending := if p = g.food then true else g.snake.growth_pending }
        food := if p = g.food then nf else g.food
        score := if p = g.food then g.score + 10 else g.score
        game_over :=
          if p ∈ t then true
          else if p.1 < 0 ∨ p.1 ≥ GRID_WIDTH ∨ p.2 < 0 ∨ p.2 ≥ GRID_HEIGHT then true
          else g.game_over } := by
  obtain ⟨⟨b, d, gp⟩, fd, sc, go⟩ := g
  simp only at hb
  subst hb
  by_cases hf : p = fd
  · subst hf
    by_cases hw : p.1 < 0 ∨ p.1 ≥ GRID_WIDTH ∨ p.2 < 0 ∨ p.2 ≥ GRID_HEIGHT <;>
      by_cases hs : p ∈ t <;>
        simp [Game.check_collisions, Snake.get_head_position, Snake.grow, hw, hs]
  · by_cases hw : p.1 < 0 ∨ p.1 ≥ GRID_WIDTH ∨ p.2 < 0 ∨ p.2 ≥ GRID_HEIGHT <;>
      by_cases hs : p ∈ t <;>
        simp [Game.check_collisions, Snake.get_head_position, Snake.grow, hf, hw, hs]

/-- C1: with a non-empty body, move inserts a new head equal to the old
head plus the current direction vector; if no growth is pending the tail
segment is removed first so the body length is unchanged, and if growth is
pending the tail removal is skipped so the length increases by exactly 1
and the pending-growth flag is cleared. -/
theorem move_inserts_head_and_handles_growth (s : Snake) (p : Pos) (t : List Pos)
    (hb : s.body = p :: t) :
    ∃ s2, s.move = some s2 ∧
      s2.body = (p.1 + s.direction.1, p.2 + s.direction.2) ::
        (if s.growth_pending then s.body else s.body.dropLast) ∧
      s2.body.length = s.body.length + (if s.growth_pending then 1 else 0) ∧
      s2.direction = s.direction ∧
      s2.growth_pending = false := by
  refine ⟨_, move_eq s p t hb, ?_, ?_, rfl, rfl⟩
  · cases hgp : s.growth_pending <;> simp [hb, hgp]
  · cases hgp : s.growth_pending <;> simp [hb, hgp]

/-- Witness for C1 at the concrete snake with body [(2, 3), (1, 3)],
heading RIGHT and growth pending. -/
theorem move_inserts_head_and_handles_growth_witness :
    ∃ s2, (Snake.mk [(2, 3), (1, 3)] RIGHT true).move = some s2 ∧
      s2.body = [((3 : Int), (3 : Int)), (2, 3), (1, 3)] ∧
      s2.body.length = 3 ∧
      s2.direction = RIGHT ∧
      s2.growth_pending = false := by
  obtain ⟨s2, h1, h2, h3, h4, h5⟩ :=
    move_inserts_head_and_handles_growth ⟨[(2, 3), (1, 3)], RIGHT, true⟩ (2, 3) [(1, 3)] rfl
  refine ⟨s2, h1, ?_, ?_, h4, h5⟩
  · simpa [RIGHT] using h2
  · simpa using h3

/-- C4: on the fixed 30 x 24 grid, the initial snake has body [(15, 12)]
heading RIGHT; three consecutive moves with no direction change and no
food give body [(18, 12)] (length 1), and a grow call before the third
move gives body [(18, 12), (17, 12)] (length 2). -/
theorem scenario_three_moves_and_grow :
    GRID_WIDTH = 30 ∧ GRID_HEIGHT = 24 ∧
    Snake.init.body = [(15, 12)] ∧ Snake.init.direction = RIGHT ∧
    ((Snake.init.move.bind Snake.move).bind Snake.move)
      = some ⟨[(18, 12)], RIGHT, false⟩ ∧
    (((Snake.init.move.bind Snake.move).map Snake.grow).bind Snake.move)
      = some ⟨[(18, 12), (17, 12)], RIGHT, false⟩ := by
  decide

/-- C5 counterexample: grow followed by move does not shift the
pre-existing segments by the direction vector; they stay in place.  For
the snake with body [(5, 5), (5, 6)] heading (1, 0), the pre-existing
segment (5, 6) shifted by the direction vector would be (6, 6), which
does not occur in the resulting body [(6, 5), (5, 5), (5, 6)]. -/
theorem grow_move_segments_do_not_shift :
    (Snake.mk [(5, 5), (5, 6)] (1, 0) false).grow.move
      = some ⟨[(6, 5), (5, 5), (5, 6)], (1, 0), false⟩ ∧
    ((5 : Int), (6 : Int)) ∈ (Snake.mk [(5, 5), (5, 6)] (1, 0) false).body ∧
    ((5 : Int) + 1, (6 : Int) + 0) ∉ ([(6, 5), (5, 5), (5, 6)] : List Pos) := by
  decide

/-- C5 amended: after grow followed by one move, the body length
increases by exactly 1 and every pre-existing segment keeps its position:
the new body is the new head (old head plus direction vector) prepended
to the unchanged old body; a second move without another grow keeps the
length constant. -/
theorem grow_then_move_prepends_head (s : Snake) (p : Pos) (t : List Pos)
    (hb : s.body = p :: t) :
    ∃ s2, s.grow.move = some s2 ∧
      s2.body = (p.1 + s.direction.1, p.2 + s.direction.2) :: s.body ∧
      s2.body.length = s.body.length + 1 ∧
      s2.growth_pending = false ∧
      ∀ s3, s2.move = some s3 → s3.body.length = s2.body.length := by
  have h1 := move_eq s.grow p t (by simpa [Snake.grow] using hb)
  simp only [grow_growth_pending, grow_direction, if_pos rfl, if_true] at h1
  refine ⟨_, h1, by simp [hb], by simp [hb], rfl, ?_⟩
  intro s3 h3
  rw [move_eq ⟨(p.1 + s.direction.1, p.2 + s.direction.2) :: p :: t, s.direction, false⟩
        (p.1 + s.direction.1, p.2 + s.direction.2) (p :: t) rfl] at h3
  cases h3
  simp

/-- Witness for the amended C5 at the snake with body [(4, 7), (4, 8)]
heading (0, -1). -/
theorem grow_then_move_prepends_head_witness :
    ∃ s2, (Snake.mk [(4, 7), (4, 8)] (0, -1) false).grow.move = some s2 ∧
      s2.body = [((4 : Int), (6 : Int)), (4, 7), (4, 8)] ∧
      s2.body.length = 3 ∧
      s2.growth_pending = false ∧
      ∀ s3, s2.move = some s3 → s3.body.length = s2.body.length := by
  obtain ⟨s2, h1, h2, h3, h4, h5⟩ :=
    grow_then_move_prepends_head ⟨[(4, 7), (4, 8)], (0, -1), false⟩ (4, 7) [(4, 8)] rfl
  refine ⟨s2, h1, ?_, ?_, h4, h5⟩
  · simpa using h2
  · simpa using h3

/-- C6: change_direction leaves the heading unchanged (indeed the whole
state unchanged) when the requested direction is the exact opposite of the
current heading, and otherwise sets the heading to it; body and growth
flag are never modified and the operation is total, so the rejection is
silent. -/
theorem change_direction_rejects_reverse (s : Snake) (d : Pos)
    (hd : d = UP ∨ d = DOWN ∨ d = LEFT ∨ d = RIGHT) :
    ((d = (-s.direction.1, -s.direction.2) → s.change_direction d = s) ∧
     (d ≠ (-s.direction.1, -s.direction.2) →
        (s.change_direction d).direction = d)) ∧
    (s.change_direction d).body = s.body ∧
    (s.change_direction d).growth_pending = s.growth_pending := by
  have key : (d = (-s.direction.1, -s.direction.2)) ↔
      ((d.1 * -1, d.2 * -1) = s.direction) := by
    rw [Prod.ext_iff, Prod.ext_iff]
    constructor <;> intro h <;> constructor <;>
      simp only [] at h ⊢ <;> omega
  refine ⟨⟨?_, ?_⟩, change_direction_body s d, change_direction_growth_pending s d⟩
  · intro hop
    unfold Snake.change_direction
    rw [if_neg (not_not_intro (key.mp hop))]
  · intro hop
    have hop2 : ¬((d.1 * -1, d.2 * -1) = s.direction) := fun hcc => hop (key.mpr hcc)
    unfold Snake.change_direction
    rw [if_pos hop2]

/-- Witness for C6 at the snake heading RIGHT with the requested
directions LEFT (the exact opposite) and UP. -/
theorem change_direction_rejects_reverse_witness :
    ((Snake.mk [(1, 1)] RIGHT false).change_direction LEFT = Snake.mk [(1, 1)] RIGHT false) ∧
    ((Snake.mk [(1, 1)] RIGHT false).change_direction UP).direction = UP := by
  constructor
  · exact (change_direction_rejects_reverse ⟨[(1, 1)], RIGHT, false⟩ LEFT
      (Or.inr (Or.inr (Or.inl rfl)))).1.1 (by decide)
  · exact (change_direction_rejects_reverse ⟨[(1, 1)], RIGHT, false⟩ UP
      (Or.inl rfl)).1.2 (by decide)

/-- C8: at minimum body length 1, grow followed by move yields the body
[head + d, head], and the self-collision condition (new head occurring in
body[1:]) cannot hold for any of the four unit direction vectors, so no
spurious game over can come from the self check. -/
theorem grow_move_min_length_no_self_collision (p : Pos) (b : Bool) (d : Pos)
    (hd : d = UP ∨ d = DOWN ∨ d = LEFT ∨ d = RIGHT) :
    ∃ s2, (Snake.mk [p] d b).grow.move = some s2 ∧
      s2.body = [(p.1 + d.1, p.2 + d.2), p] ∧
      (p.1 + d.1, p.2 + d.2) ∉ s2.body.drop 1 := by
  have h1 := move_eq (Snake.mk [p] d b).grow p [] rfl
  simp only [grow_growth_pending, grow_direction, if_true] at h1
  refine ⟨_, h1, rfl, ?_⟩
  simp only [List.drop, List.mem_singleton]
  rcases hd with h | h | h | h <;> subst h <;>
    simp [UP, DOWN, LEFT, RIGHT, Prod.ext_iff]

/-- Witness for C8 at position (15, 12) heading DOWN. -/
theorem grow_move_min_length_no_self_collision_witness :
    ∃ s2, (Snake.mk [(15, 12)] DOWN false).grow.move = some s2 ∧
      s2.body = [((15 : Int), (13 : Int)), (15, 12)] ∧
      ((15 : Int), (13 : Int)) ∉ s2.body.drop 1 := by
  obtain ⟨s2, h1, h2, h3⟩ :=
    grow_move_min_length_no_self_collision (15, 12) false DOWN
      (Or.inr (Or.inl rfl))
  exact ⟨s2, h1, by simpa [DOWN] using h2, by simpa [DOWN] using h3⟩

/-- C10: any positive number of grow calls between two moves equals a
single grow call: the pending-growth state is one boolean flag, and the
next move increases the body length by exactly 1 and clears the flag
regardless of how many grow calls preceded it. -/
theorem repeated_grow_equals_single_grow (s : Snake) (n : Nat) (hn : 1 ≤ n) :
    Snake.grow^[n] s = s.grow ∧
    (∀ p t, s.body = p :: t →
      ∃ s2, (Snake.grow^[n] s).move = some s2 ∧
        s2.body.length = s.body.length + 1 ∧ s2.growth_pending = false) := by
  have hiter : ∀ m : Nat, Snake.grow^[m] s.grow = s.grow := by
    intro m
    induction m with
    | zero => rfl
    | succ m ih => rw [Function.iterate_succ_apply, grow_grow, ih]
  obtain ⟨k, hk⟩ := Nat.exists_eq_add_of_le hn
  have hone : Snake.grow^[n] s = s.grow := by
    rw [hk, Nat.add_comm, Function.iterate_add_apply]
    simpa using hiter k
  refine ⟨hone, ?_⟩
  intro p t hb
  rw [hone]
  have h1 := move_eq s.grow p t (by simpa [Snake.grow] using hb)
  simp only [grow_growth_pending, if_true] at h1
  exact ⟨_, h1, by simp [hb], rfl⟩

/-- Witness for C10 with three grow calls on the initial snake. -/
theorem repeated_grow_equals_single_grow_witness :
    Snake.grow^[3] Snake.init = Snake.init.grow ∧
    (∃ s2, (Snake.grow^[3] Snake.init).move = some s2 ∧
      s2.body.length = Snake.init.body.length + 1 ∧ s2.growth_pending = false) := by
  obtain ⟨h1, h2⟩ := repeated_grow_equals_single_grow Snake.init 3 (by decide)
  exact ⟨h1, h2 (GRID_WIDTH / 2, GRID_HEIGHT / 2) [] rfl⟩

/-- Evaluation of one running tick with a non-empty body: event handling
followed by the move and the three collision checks. -/
theorem step_eq (g g1 : Game) (events : List GEvent) (nf : Pos) (p : Pos) (t0 : List Pos)
    (hev : g.handle_events events = some g1)
    (hb : g.snake.body = p :: t0)
    (hrun : g.game_over = false) :
    g.step events nf = some
      { snake :=
          { body := (p.1 + g1.snake.direction.1, p.2 + g1.snake.direction.2) ::
              (if g.snake.growth_pending then p :: t0 else (p :: t0).dropLast)
            direction := g1.snake.direction
            growth_pending :=
              if (p.1 + g1.snake.direction.1, p.2 + g1.snake.direction.2) = g.food then true
              else false }
        food :=
          if (p.1 + g1.snake.direction.1, p.2 + g1.snake.direction.2) = g.food then nf
          else g.food
        score :=
          if (p.1 + g1.snake.direction.1, p.2 + g1.snake.direction.2) = g.food then g.score + 10
          else g.score
        game_over :=
          if (p.1 + g1.snake.direction.1, p.2 + g1.snake.direction.2) ∈
              (if g.snake.growth_pending then p :: t0 else (p :: t0).dropLast) then true
          else if (p.1 + g1.snake.direction.1) < 0 ∨ (p.1 + g1.snake.direction.1) ≥ GRID_WIDTH ∨
                  (p.2 + g1.snake.direction.2) < 0 ∨ (p.2 + g1.snake.direction.2) ≥ GRID_HEIGHT then true
          else false } := by
  obtain ⟨hbody, hgp, hfd, hsc, hgo⟩ := handle_events_some g events g1 hev
  have hb1 : g1.snake.body = p :: t0 := hbody.trans hb
  have hgo1 : g1.game_over = false := hgo.trans hrun
  have hmv := move_eq g1.snake p t0 hb1
  have hcc := check_collisions_eq
      { g1 with snake := ⟨(p.1 + g1.snake.direction.1, p.2 + g1.snake.direction.2) ::
          (if g1.snake.growth_pending then p :: t0 else (p :: t0).dropLast),
          g1.snake.direction, false⟩ } nf
      (p.1 + g1.snake.direction.1, p.2 + g1.snake.direction.2)
      (if g1.snake.growth_pending then p :: t0 else (p :: t0).dropLast) rfl
  simp only [Game.step, hev]
  rw [if_neg (by simp [hgo1])]
  simp only [hmv]
  rw [hcc]
  simp [hgp, hfd, hsc, hgo1]

/-- C2: a running tick with a non-empty snake always produces a successor
state (game over is signaled only through the flag, never through an
error), and the game-over flag of that state is true exactly when the new
head lies outside the grid or occurs in some body segment other than the
head itself. -/
theorem step_game_over_iff_wall_or_self (g g1 : Game) (events : List GEvent)
    (nf : Pos) (p : Pos) (t0 : List Pos)
    (hev : g.handle_events events = some g1)
    (hb : g.snake.body = p :: t0)
    (hrun : g.game_over = false) :
    ∃ g2 rest,
      g.step events nf = some g2 ∧
      g2.snake.body = (p.1 + g1.snake.direction.1, p.2 + g1.snake.direction.2) :: rest ∧
      (g2.game_over = true ↔
        ((p.1 + g1.snake.direction.1) < 0 ∨ (p.1 + g1.snake.direction.1) ≥ GRID_WIDTH ∨
         (p.2 + g1.snake.direction.2) < 0 ∨ (p.2 + g1.snake.direction.2) ≥ GRID_HEIGHT ∨
         (p.1 + g1.snake.direction.1, p.2 + g1.snake.direction.2) ∈ rest)) := by
  have hst := step_eq g g1 events nf p t0 hev hb hrun
  refine ⟨_, (if g.snake.growth_pending then p :: t0 else (p :: t0).dropLast), hst, rfl, ?_⟩
  by_cases hs : (p.1 + g1.snake.direction.1, p.2 + g1.snake.direction.2) ∈
      (if g.snake.growth_pending then p :: t0 else (p :: t0).dropLast)
  · simp [hs]
  · by_cases hw : (p.1 + g1.snake.direction.1) < 0 ∨ (p.1 + g1.snake.direction.1) ≥ GRID_WIDTH ∨
        (p.2 + g1.snake.direction.2) < 0 ∨ (p.2 + g1.snake.direction.2) ≥ GRID_HEIGHT
    · simp [hs, hw]
    · simp [hs, hw]

/-- Witness for C2: snake at (0, 5) heading LEFT walks into the left
wall. -/
theorem step_game_over_iff_wall_or_self_witness :
    ∃ g2 rest,
      (Game.mk ⟨[((0 : Int), (5 : Int))], LEFT, false⟩ (9, 9) 0 false).step [] (3, 3) = some g2 ∧
      g2.snake.body = ((-1 : Int), (5 : Int)) :: rest ∧
      (g2.game_over = true ↔
        ((-1 : Int) < 0 ∨ (-1 : Int) ≥ GRID_WIDTH ∨ (5 : Int) < 0 ∨ (5 : Int) ≥ GRID_HEIGHT ∨
          ((-1 : Int), (5 : Int)) ∈ rest)) := by
  obtain ⟨g2, rest, h1, h2, h3⟩ :=
    step_game_over_iff_wall_or_self
      (Game.mk ⟨[((0 : Int), (5 : Int))], LEFT, false⟩ (9, 9) 0 false)
      (Game.mk ⟨[((0 : Int), (5 : Int))], LEFT, false⟩ (9, 9) 0 false)
      [] (3, 3) ((0 : Int), (5 : Int)) [] rfl rfl rfl
  refine ⟨g2, rest, h1, ?_, ?_⟩
  · simpa [LEFT] using h2
  · simpa [LEFT] using h3

/-- C3: on a running tick, if the head position after the move equals the
food position then growth is scheduled, the score increases by exactly 10
and the food is replaced by the fresh random draw; this holds
unconditionally, in particular also when the same tick sets the game-over
flag, because the food check runs first and all checks run. -/
theorem step_food_hit_scores_even_on_death (g g1 : Game) (events : List GEvent)
    (nf : Pos) (p : Pos) (t0 : List Pos)
    (hev : g.handle_events events = some g1)
    (hb : g.snake.body = p :: t0)
    (hrun : g.game_over = false)
    (hhit : (p.1 + g1.snake.direction.1, p.2 + g1.snake.direction.2) = g.food) :
    ∃ g2, g.step events nf = some g2 ∧
      g2.score = g.score + 10 ∧
      g2.snake.growth_pending = true ∧
      g2.food = nf := by
  have hst := step_eq g g1 events nf p t0 hev hb hrun
  exact ⟨_, hst, by simp [hhit], by simp [hhit], by simp [hhit]⟩

/-- Witness for C3: the snake at (5, 5) heading RIGHT eats the food at
(6, 5) while running into nothing; the variant state also shows the score
update happens on a death tick, see the main theorem. -/
theorem step_food_hit_scores_even_on_death_witness :
    ∃ g2, (Game.mk ⟨[((5 : Int), (5 : Int))], RIGHT, false⟩ (6, 5) 0 false).step [] (2, 2) = some g2 ∧
      g2.score = 0 + 10 ∧
      g2.snake.growth_pending = true ∧
      g2.food = (2, 2) := by
  exact step_food_hit_scores_even_on_death
    (Game.mk ⟨[((5 : Int), (5 : Int))], RIGHT, false⟩ (6, 5) 0 false)
    (Game.mk ⟨[((5 : Int), (5 : Int))], RIGHT, false⟩ (6, 5) 0 false)
    [] (2, 2) ((5 : Int), (5 : Int)) [] rfl rfl rfl (by decide)

/-- C7 counterexample: a tick on which the body length changes while the
head does not meet the food.  The snake eats at (6, 5) on the first tick
(length still 1); on the second tick the length grows to 2 although the
new head (7, 5) differs from the food position (0, 0) throughout that
tick. -/
theorem length_change_tick_without_food_hit :
    (Game.mk ⟨[((5 : Int), (5 : Int))], (1, 0), false⟩ (6, 5) 0 false).step [] (0, 0)
      = some (Game.mk ⟨[((6 : Int), (5 : Int))], (1, 0), true⟩ (0, 0) 10 false) ∧
    (Game.mk ⟨[((6 : Int), (5 : Int))], (1, 0), true⟩ (0, 0) 10 false).step [] (9, 9)
      = some (Game.mk ⟨[((7 : Int), (5 : Int)), (6, 5)], (1, 0), false⟩ (0, 0) 10 false) ∧
    (Game.mk ⟨[((7 : Int), (5 : Int)), (6, 5)], (1, 0), false⟩ (0, 0) 10 false).snake.body.length
      = (Game.mk ⟨[((6 : Int), (5 : Int))], (1, 0), true⟩ (0, 0) 10 false).snake.body.length + 1 ∧
    (Game.mk ⟨[((7 : Int), (5 : Int)), (6, 5)], (1, 0), false⟩ (0, 0) 10 false).snake.body.head?
      ≠ some ((Game.mk ⟨[((6 : Int), (5 : Int))], (1, 0), true⟩ (0, 0) 10 false).food) := by
  decide

/-- Length can only stay equal or grow by one in a single tick. -/
theorem step_length_le (g : Game) (events : List GEvent) (nf : Pos) (g2 : Game)
    (h : g.step events nf = some g2) :
    g.snake.body.length ≤ g2.snake.body.length := by
  cases hev : g.handle_events events with
  | none => simp [Game.step, hev] at h
  | some g1 =>
    obtain ⟨hbody, hgp, hfd, hsc, hgo⟩ := handle_events_some g events g1 hev
    by_cases hgo1 : g1.game_over = true
    · have hg2 : g1 = g2 := by simpa [Game.step, hev, hgo1] using h
      rw [← hg2, hbody]
    · have hrun : g.game_over = false := by
        rw [← hgo]; exact Bool.not_eq_true _ ▸ Bool.eq_false_iff.mpr hgo1
      cases hb : g1.snake.body with
      | nil =>
        have hmv : g1.snake.move = none := by simp [Snake.move, hb]
        simp [Game.step, hev, hgo1, hmv] at h
      | cons p t0 =>
        have hb0 : g.snake.body = p :: t0 := hbody.symm.trans hb
        have hst := step_eq g g1 events nf p t0 hev hb0 hrun
        rw [hst] at h
        cases h
        rw [hb0]
        cases hgrow : g.snake.growth_pending <;> simp [hgrow]

/-- C7 amended: over any sequence of ticks the snake body length is
non-decreasing (in particular for sequences whose direction changes never
reverse the heading); on a running tick the length grows by exactly 1
when growth is pending at the start of the tick and is unchanged
otherwise, and growth is pending after a tick exactly when the new head
equals the food position of that tick, so a food hit enlarges the body on
the following tick, not on the hit tick itself. -/
theorem length_monotone_growth_next_tick :
    (∀ (g : Game) (inputs : List (List GEvent × Pos)) (g2 : Game),
        g.runTicks inputs = some g2 →
        g.snake.body.length ≤ g2.snake.body.length) ∧
    (∀ (g : Game) (events : List GEvent) (nf : Pos) (g2 : Game),
        g.game_over = false →
        g.step events nf = some g2 →
        g2.snake.body.length =
          g.snake.body.length + (if g.snake.growth_pending then 1 else 0) ∧
        (g2.snake.growth_pending = true ↔ g2.snake.body.head? = some g.food)) := by
  constructor
  · intro g inputs
    induction inputs generalizing g with
    | nil =>
      intro g2 h
      simp only [Game.runTicks, Option.some.injEq] at h
      rw [h]
    | cons input rest ih =>
      intro g2 h
      obtain ⟨events, nf⟩ := input
      cases hst : g.step events nf with
      | none => simp [Game.runTicks, hst] at h
      | some gmid =>
        have hrest : gmid.runTicks rest = some g2 := by
          simpa [Game.runTicks, hst] using h
        exact (step_length_le g events nf gmid hst).trans (ih gmid g2 hrest)
  · intro g events nf g2 hrun hstep
    cases hev : g.handle_events events with
    | none => simp [Game.step, hev] at hstep
    | some g1 =>
      obtain ⟨hbody, hgp, hfd, hsc, hgo⟩ := handle_events_some g events g1 hev
      have hgo1 : g1.game_over = false := hgo.trans hrun
      cases hb : g1.snake.body with
      | nil =>
        have hmv : g1.snake.move = none := by simp [Snake.move, hb]
        simp [Game.step, hev, hgo1, hmv] at hstep
      | cons p t0 =>
        have hb0 : g.snake.body = p :: t0 := hbody.symm.trans hb
        have hst := step_eq g g1 events nf p t0 hev hb0 hrun
        rw [hst] at hstep
        cases hstep
        constructor
        · rw [hb0]
          cases hgrow : g.snake.growth_pending <;> simp [hgrow]
        · by_cases hf : (p.1 + g1.snake.direction.1, p.2 + g1.snake.direction.2) = g.food <;>
            simp [hf]

/-- Witness for the amended C7: one tick from the initial food-free state
and the single tick following a food hit. -/
theorem length_monotone_growth_next_tick_witness :
    ((Game.mk ⟨[((5 : Int), (5 : Int))], (1, 0), false⟩ (6, 5) 0 false).snake.body.length ≤
      (Game.mk ⟨[((6 : Int), (5 : Int))], (1, 0), true⟩ (0, 0) 10 false).snake.body.length) ∧
    ((Game.mk ⟨[((7 : Int), (5 : Int)), (6, 5)], (1, 0), false⟩ (0, 0) 10 false).snake.body.length =
        (Game.mk ⟨[((6 : Int), (5 : Int))], (1, 0), true⟩ (0, 0) 10 false).snake.body.length +
          (if (Game.mk ⟨[((6 : Int), (5 : Int))], (1, 0), true⟩ (0, 0) 10 false).snake.growth_pending
           then 1 else 0) ∧
      ((Game.mk ⟨[((7 : Int), (5 : Int)), (6, 5)], (1, 0), false⟩ (0, 0) 10 false).snake.growth_pending = true ↔
        (Game.mk ⟨[((7 : Int), (5 : Int)), (6, 5)], (1, 0), false⟩ (0, 0) 10 false).snake.body.head? =
          some (Game.mk ⟨[((6 : Int), (5 : Int))], (1, 0), true⟩ (0, 0) 10 false).food)) := by
  constructor
  · exact length_monotone_growth_next_tick.1
      (Game.mk ⟨[((5 : Int), (5 : Int))], (1, 0), false⟩ (6, 5) 0 false)
      [([], (0, 0))]
      (Game.mk ⟨[((6 : Int), (5 : Int))], (1, 0), true⟩ (0, 0) 10 false)
      (by decide)
  · exact length_monotone_growth_next_tick.2
      (Game.mk ⟨[((6 : Int), (5 : Int))], (1, 0), true⟩ (0, 0) 10 false)
      [] (9, 9)
      (Game.mk ⟨[((7 : Int), (5 : Int)), (6, 5)], (1, 0), false⟩ (0, 0) 10 false)
      rfl (by decide)

/-- Restarting from an already reset state is invariant: further keydown
events only reset again to the same state. -/
theorem display_game_over_after_reset (g : Game) (nf : Pos) :
    ∀ es : List GEvent, GEvent.quit ∉ es →
      (g.reset_game nf).display_game_over nf es = some (g.reset_game nf) := by
  intro es
  induction es with
  | nil => intro _; rfl
  | cons e es ih =>
    intro hq
    cases e with
    | quit => simp at hq
    | keydown k =>
      have hq2 : GEvent.quit ∉ es := fun h => hq (List.mem_cons_of_mem _ h)
      have hrw : Game.display_game_over (g.reset_game nf) nf (GEvent.keydown k :: es)
          = Game.display_game_over ((g.reset_game nf).reset_game nf) nf es := rfl
      rw [hrw]
      exact ih hq2
    | other =>
      exact ih (fun h => hq (List.mem_cons_of_mem _ h))

/-- C9: while in the game-over state, an event batch containing a key
event (and no quit) triggers a full reset: score 0, single center body
segment heading RIGHT with no growth pending, food set to the fresh
random draw, and the game-over flag cleared, so the machine returns to
the running state. -/
theorem game_over_keydown_resets (g : Game) (nf : Pos) (es : List GEvent) (k : Key)
    (hgo : g.game_over = true)
    (hq : GEvent.quit ∉ es) (hk : GEvent.keydown k ∈ es) :
    g.display_game_over nf es = some (g.reset_game nf) ∧
    (g.reset_game nf).score = 0 ∧
    (g.reset_game nf).snake.body = [(GRID_WIDTH / 2, GRID_HEIGHT / 2)] ∧
    (g.reset_game nf).snake.direction = RIGHT ∧
    (g.reset_game nf).snake.growth_pending = false ∧
    (g.reset_game nf).food = nf ∧
    (g.reset_game nf).game_over = false := by
  refine ⟨?_, rfl, rfl, rfl, rfl, rfl, rfl⟩
  clear hgo
  induction es with
  | nil => exact absurd hk (List.not_mem_nil _)
  | cons e es ih =>
    cases e with
    | quit => simp at hq
    | keydown k2 =>
      have hq2 : GEvent.quit ∉ es := fun h => hq (List.mem_cons_of_mem _ h)
      have hrw : Game.display_game_over g nf (GEvent.keydown k2 :: es)
          = Game.display_game_over (g.reset_game nf) nf es := rfl
      rw [hrw]
      exact display_game_over_after_reset g nf es hq2
    | other =>
      cases hk with
      | tail _ h =>
        exact ih (fun hh => hq (List.mem_cons_of_mem _ hh)) h

/-- Witness for C9 at a concrete dead game with score 50. -/
theorem game_over_keydown_resets_witness :
    (Game.mk ⟨[((3 : Int), (3 : Int))], RIGHT, false⟩ (2, 2) 50 true).display_game_over (7, 7)
        [GEvent.other, GEvent.keydown Key.up]
      = some ((Game.mk ⟨[((3 : Int), (3 : Int))], RIGHT, false⟩ (2, 2) 50 true).reset_game (7, 7)) ∧
    ((Game.mk ⟨[((3 : Int), (3 : Int))], RIGHT, false⟩ (2, 2) 50 true).reset_game (7, 7)).score = 0 ∧
    ((Game.mk ⟨[((3 : Int), (3 : Int))], RIGHT, false⟩ (2, 2) 50 true).reset_game (7, 7)).snake.body
      = [(GRID_WIDTH / 2, GRID_HEIGHT / 2)] ∧
    ((Game.mk ⟨[((3 : Int), (3 : Int))], RIGHT, false⟩ (2, 2) 50 true).reset_game (7, 7)).snake.direction = RIGHT ∧
    ((Game.mk ⟨[((3 : Int), (3 : Int))], RIGHT, false⟩ (2, 2) 50 true).reset_game (7, 7)).snake.growth_pending = false ∧
    ((Game.mk ⟨[((3 : Int), (3 : Int))], RIGHT, false⟩ (2, 2) 50 true).reset_game (7, 7)).food = (7, 7) ∧
    ((Game.mk ⟨[((3 : Int), (3 : Int))], RIGHT, false⟩ (2, 2) 50 true).reset_game (7, 7)).game_over = false := by
  exact game_over_keydown_resets
    (Game.mk ⟨[((3 : Int), (3 : Int))], RIGHT, false⟩ (2, 2) 50 true)
    (7, 7) [GEvent.other, GEvent.keydown Key.up] Key.up rfl (by decide) (by decide)

end SnakeGame
